import Mathlib

/-!
Shallow embedding of the host-based HTTP reverse proxy in
`src/python_test/app.py` (Flask application, single handler `gateway`),
together with proofs of its specified routing and forwarding behaviour.

The Python handler is modelled as a pure function from an inbound request,
a route store (the MongoDB `routes_collection`) and an upstream oracle
(the `requests` HTTP client) to the client-visible response plus a trace
of the effects it performed (whether the store was queried, which
outbound calls were issued).
-/

namespace Gateway

/-- HTTP methods: the five the handler dispatches on, plus any other verb. -/
inductive Method where
  | GET
  | POST
  | PUT
  | PATCH
  | DELETE
  | other (s : String)
deriving DecidableEq, Repr

/-- A multipart file attachment as the handler reads it from
`request.files`: `file.filename`, `file.stream` (content bytes) and
`file.mimetype`. -/
structure FilePart where
  filename : String
  stream : List Nat
  mimetype : String
deriving DecidableEq, Repr

/-- An inbound HTTP request as seen by the Flask handler.  `headers` is the
full inbound header list (including any `Host` header); `args` is the query
string (`request.args`); `form` the non-file form fields (`request.form`);
`files` the multipart file attachments (`request.files`, a multi-dict, so
repeated field names are possible); `json` the parsed JSON payload
(`request.json`), if any. -/
structure InboundRequest where
  method : Method
  path : String
  args : List (String × String)
  headers : List (String × String)
  form : List (String × String)
  files : List (String × FilePart)
  json : Option String
deriving DecidableEq, Repr

/-- A document of the route store: `{'host_url': ..., 'target_url': ...}`. -/
structure Route where
  host_url : String
  target_url : String
deriving DecidableEq, Repr

/-- The body of the outbound request handed to the HTTP client. -/
inductive Body where
  | noBody
  | jsonBody (j : Option String)
  | multipartBody (form : List (String × String)) (files : List (String × FilePart))
deriving DecidableEq, Repr

/-- The outbound request handed to the HTTP client (`requests.get` & co.):
URL string, header dict, `params=` keyword (empty when the call passes no
`params` argument), and body. -/
structure OutboundRequest where
  url : String
  headers : List (String × String)
  params : List (String × String)
  body : Body
deriving DecidableEq, Repr

/-- An upstream HTTP response: `response.content`, `response.status_code`,
`response.headers.items()`. -/
structure UpstreamResponse where
  content : List Nat
  status : Nat
  headers : List (String × String)
deriving DecidableEq, Repr

/-- What the handler returns to the original client: either a
`jsonify({'error': msg}), status` pair or the relayed
`(response.content, response.status_code, response.headers.items())`. -/
inductive ClientResponse where
  | jsonError (msg : String) (status : Nat)
  | relay (content : List Nat) (status : Nat) (headers : List (String × String))
deriving DecidableEq, Repr

/-- The handler's outcome plus a trace of its observable effects:
whether `routes_collection.find_one` ran, and the outbound calls issued
through the HTTP client, in order. -/
structure GatewayResult where
  response : ClientResponse
  storeQueried : Bool
  upstreamCalls : List OutboundRequest
deriving Repr

/-- `key.lower()`: ASCII lowercasing, character by character. -/
def strLower (s : String) : String :=
  ⟨s.data.map Char.toLower⟩

/-- `request.headers.get(name)`: case-insensitive lookup of the first
header with the given name. -/
def getHeaderCI (headers : List (String × String)) (name : String) : Option String :=
  (headers.find? (fun p => strLower p.1 = strLower name)).map Prod.snd

/-- `routes_collection.find_one({'host_url': h})`: first stored route whose
`host_url` equals `h` exactly. -/
def find_one (store : List Route) (h : String) : Option Route :=
  store.find? (fun r => r.host_url = h)

/-- Resolve the inbound request's `Host` header against the store
(`request.headers.get("host")` followed by `find_one`); a request without
a `Host` header matches no route. -/
def resolvedRoute (store : List Route) (req : InboundRequest) : Option Route :=
  match getHeaderCI req.headers "host" with
  | none => none
  | some h => find_one store h

/-- `target_url.rstrip('/')`: remove every trailing `/`. -/
def rstripSlash (s : String) : String :=
  ⟨(s.data.reverse.dropWhile (fun c => c = '/')).reverse⟩

/-- Line 26 of `app.py`:
`f"http://{target_url}/{path}" if path else target_url`,
applied to the already-stripped target. -/
def fullTargetUrl (target_url path : String) : String :=
  let t := rstripSlash target_url
  if path ≠ "" then "http://" ++ t ++ "/" ++ path else t

/-- Insert a key into a Python dict modelled as an ordered association
list: an existing key keeps its position and gets the new value, a new key
is appended. -/
def dictInsert (d : List (String × String)) (k v : String) : List (String × String) :=
  if d.any (fun p => p.1 = k) then
    d.map (fun p => if p.1 = k then (k, v) else p)
  else
    d ++ [(k, v)]

/-- Build a Python dict from a sequence of pairs (later values of a
repeated key overwrite earlier ones, first position kept). -/
def dictOfList (l : List (String × String)) : List (String × String) :=
  l.foldl (fun d p => dictInsert d p.1 p.2) []

/-- Line 31 of `app.py`:
`{key: value for key, value in request.headers if key.lower() != 'host'}`. -/
def outboundHeaders (headers : List (String × String)) : List (String × String) :=
  dictOfList (headers.filter (fun p => strLower p.1 ≠ "host"))

/-- `request.files.items()` on a werkzeug `MultiDict`: one entry per key,
the first value stored for that key, keys in order of first occurrence. -/
def firstPerKey : List (String × FilePart) → List (String × FilePart)
  | [] => []
  | (k, v) :: rest => (k, v) :: firstPerKey (rest.filter (fun p => p.1 ≠ k))
termination_by l => l.length
decreasing_by
  simp only [List.length_cons]
  exact Nat.lt_succ_of_le (List.length_filter_le _ _)

/-- The body the handler sends for POST/PUT/PATCH: multipart
(`data=request.form, files={...}`) when `request.files` is non-empty,
otherwise `json=request.json`. -/
def postLikeBody (req : InboundRequest) : Body :=
  if req.files ≠ [] then
    Body.multipartBody req.form (firstPerKey req.files)
  else
    Body.jsonBody req.json

/-- Issue one outbound call and translate its outcome: a successful
response is relayed verbatim, a `requests.exceptions.RequestException`
becomes `jsonify({'error': str(e)}), 500`. -/
def callUpstream (upstream : OutboundRequest → Except String UpstreamResponse)
    (out : OutboundRequest) : GatewayResult :=
  match upstream out with
  | .ok resp => ⟨.relay resp.content resp.status resp.headers, true, [out]⟩
  | .error e => ⟨.jsonError e 500, true, [out]⟩

/-- The `gateway(path)` handler of `app.py`, lines 19–61: look up the
`Host` header in the route store; on a miss return 404; otherwise build
the outbound URL and filtered headers and dispatch on the method (GET with
`params=request.args`, POST/PUT/PATCH with the file/JSON body decision,
DELETE bare, anything else 405). -/
def gateway (store : List Route)
    (upstream : OutboundRequest → Except String UpstreamResponse)
    (req : InboundRequest) : GatewayResult :=
  match resolvedRoute store req with
  | none => ⟨.jsonError "Route not found" 404, true, []⟩
  | some route =>
    match req.method with
    | .GET =>
      callUpstream upstream
        ⟨fullTargetUrl route.target_url req.path, outboundHeaders req.headers, req.args, .noBody⟩
    | .POST =>
      callUpstream upstream
        ⟨fullTargetUrl route.target_url req.path, outboundHeaders req.headers, [], postLikeBody req⟩
    | .PUT =>
      callUpstream upstream
        ⟨fullTargetUrl route.target_url req.path, outboundHeaders req.headers, [], postLikeBody req⟩
    | .PATCH =>
      callUpstream upstream
        ⟨fullTargetUrl route.target_url req.path, outboundHeaders req.headers, [], postLikeBody req⟩
    | .DELETE =>
      callUpstream upstream
        ⟨fullTargetUrl route.target_url req.path, outboundHeaders req.headers, [], .noBody⟩
    | .other _ => ⟨.jsonError "Method not allowed" 405, true, []⟩

/-- The methods the handler forwards upstream. -/
def supported (m : Method) : Prop :=
  m = .GET ∨ m = .POST ∨ m = .PUT ∨ m = .PATCH ∨ m = .DELETE

/-- The three methods that carry a body. -/
def postLike (m : Method) : Prop :=
  m = .POST ∨ m = .PUT ∨ m = .PATCH

/-! ### Basic lemmas about the building blocks -/

theorem callUpstream_calls (upstream : OutboundRequest → Except String UpstreamResponse)
    (out : OutboundRequest) :
    (callUpstream upstream out).upstreamCalls = [out] := by
  unfold callUpstream
  cases upstream out <;> rfl

theorem callUpstream_error (upstream : OutboundRequest → Except String UpstreamResponse)
    (out : OutboundRequest) (e : String) (h : upstream out = Except.error e) :
    (callUpstream upstream out).response = .jsonError e 500 := by
  unfold callUpstream
  rw [h]

theorem callUpstream_ok (upstream : OutboundRequest → Except String UpstreamResponse)
    (out : OutboundRequest) (u : UpstreamResponse) (h : upstream out = Except.ok u) :
    (callUpstream upstream out).response = .relay u.content u.status u.headers := by
  unfold callUpstream
  rw [h]

theorem gateway_notFound (store : List Route)
    (upstream : OutboundRequest → Except String UpstreamResponse) (req : InboundRequest)
    (hr : resolvedRoute store req = none) :
    gateway store upstream req = ⟨.jsonError "Route not found" 404, true, []⟩ := by
  unfold gateway
  rw [hr]

theorem gateway_get (store : List Route)
    (upstream : OutboundRequest → Except String UpstreamResponse) (req : InboundRequest)
    (r : Route) (hr : resolvedRoute store req = some r) (hm : req.method = .GET) :
    gateway store upstream req = callUpstream upstream
      ⟨fullTargetUrl r.target_url req.path, outboundHeaders req.headers, req.args, .noBody⟩ := by
  unfold gateway
  rw [hr, hm]

theorem gateway_postLike (store : List Route)
    (upstream : OutboundRequest → Except String UpstreamResponse) (req : InboundRequest)
    (r : Route) (hr : resolvedRoute store req = some r) (hm : postLike req.method) :
    gateway store upstream req = callUpstream upstream
      ⟨fullTargetUrl r.target_url req.path, outboundHeaders req.headers, [],
        postLikeBody req⟩ := by
  unfold gateway
  rw [hr]
  rcases hm with h | h | h <;> rw [h]

theorem gateway_delete (store : List Route)
    (upstream : OutboundRequest → Except String UpstreamResponse) (req : InboundRequest)
    (r : Route) (hr : resolvedRoute store req = some r) (hm : req.method = .DELETE) :
    gateway store upstream req = callUpstream upstream
      ⟨fullTargetUrl r.target_url req.path, outboundHeaders req.headers, [], .noBody⟩ := by
  unfold gateway
  rw [hr, hm]

theorem gateway_other (store : List Route)
    (upstream : OutboundRequest → Except String UpstreamResponse) (req : InboundRequest)
    (r : Route) (s : String) (hr : resolvedRoute store req = some r)
    (hm : req.method = .other s) :
    gateway store upstream req = ⟨.jsonError "Method not allowed" 405, true, []⟩ := by
  unfold gateway
  rw [hr, hm]

/-- Every supported method's dispatch issues exactly one outbound call, with
the URL and filtered headers computed once before the method switch. -/
theorem gateway_supported (store : List Route)
    (upstream : OutboundRequest → Except String UpstreamResponse) (req : InboundRequest)
    (r : Route) (hr : resolvedRoute store req = some r) (hm : supported req.method) :
    ∃ out : OutboundRequest,
      gateway store upstream req = callUpstream upstream out ∧
      (gateway store upstream req).upstreamCalls = [out] ∧
      out.url = fullTargetUrl r.target_url req.path ∧
      out.headers = outboundHeaders req.headers ∧
      out.params = (if req.method = .GET then req.args else []) ∧
      out.body = (match req.method with
        | .POST => postLikeBody req
        | .PUT => postLikeBody req
        | .PATCH => postLikeBody req
        | _ => .noBody) := by
  rcases hm with h | h | h | h | h
  · refine ⟨_, gateway_get store upstream req r hr h, ?_, rfl, rfl, ?_, ?_⟩
    · rw [gateway_get store upstream req r hr h, callUpstream_calls]
    · rw [h]
      rfl
    · rw [h]
  · refine ⟨_, gateway_postLike store upstream req r hr (Or.inl h), ?_, rfl, rfl, ?_, ?_⟩
    · rw [gateway_postLike store upstream req r hr (Or.inl h), callUpstream_calls]
    · rw [h]
      rfl
    · rw [h]
  · refine ⟨_, gateway_postLike store upstream req r hr (Or.inr (Or.inl h)), ?_, rfl, rfl, ?_, ?_⟩
    · rw [gateway_postLike store upstream req r hr (Or.inr (Or.inl h)), callUpstream_calls]
    · rw [h]
      rfl
    · rw [h]
  · refine ⟨_, gateway_postLike store upstream req r hr (Or.inr (Or.inr h)), ?_, rfl, rfl, ?_, ?_⟩
    · rw [gateway_postLike store upstream req r hr (Or.inr (Or.inr h)), callUpstream_calls]
    · rw [h]
      rfl
    · rw [h]
  · refine ⟨_, gateway_delete store upstream req r hr h, ?_, rfl, rfl, ?_, ?_⟩
    · rw [gateway_delete store upstream req r hr h, callUpstream_calls]
    · rw [h]
      rfl
    · rw [h]

/-! ### Lemmas about the Python dict construction -/

theorem dictInsert_notMem (d : List (String × String)) (k v : String)
    (h : ∀ p ∈ d, p.1 ≠ k) : dictInsert d k v = d ++ [(k, v)] := by
  have hany : d.any (fun p => p.1 = k) = false := by
    rw [List.any_eq_false]
    intro p hp
    simpa using h p hp
  unfold dictInsert
  rw [hany]
  simp

theorem foldl_dictInsert_nodup (l : List (String × String)) :
    ∀ acc : List (String × String), (l.map Prod.fst).Nodup →
      (∀ p ∈ acc, ∀ q ∈ l, p.1 ≠ q.1) →
      l.foldl (fun d p => dictInsert d p.1 p.2) acc = acc ++ l := by
  induction l with
  | nil => simp
  | cons hd tl ih =>
    intro acc hnd hdisj
    rw [List.map_cons, List.nodup_cons] at hnd
    simp only [List.foldl_cons]
    rw [dictInsert_notMem acc hd.1 hd.2 (fun p hp => hdisj p hp hd (List.mem_cons_self _ _))]
    rw [ih (acc ++ [(hd.1, hd.2)]) hnd.2 ?_]
    · simp
    · intro p hp q hq
      rcases List.mem_append.mp hp with h1 | h2
      · exact hdisj p h1 q (List.mem_cons_of_mem _ hq)
      · have hp' : p = (hd.1, hd.2) := by simpa using h2
        subst hp'
        intro heq
        exact hnd.1 (heq ▸ List.mem_map_of_mem Prod.fst hq)

/-- On a key-duplicate-free pair list, building the dict is the identity. -/
theorem dictOfList_eq_self (l : List (String × String))
    (h : (l.map Prod.fst).Nodup) : dictOfList l = l := by
  unfold dictOfList
  rw [foldl_dictInsert_nodup l [] h (by simp)]
  simp

/-- When the inbound header names are pairwise distinct (as the WSGI layer
guarantees, since it joins repeated request headers into one environ
entry), the header dict built on line 31 is exactly the inbound list with
the `Host` entries removed. -/
theorem outboundHeaders_eq_filter (headers : List (String × String))
    (h : (headers.map Prod.fst).Nodup) :
    outboundHeaders headers = headers.filter (fun p => strLower p.1 ≠ "host") := by
  unfold outboundHeaders
  apply dictOfList_eq_self
  exact h.sublist ((List.filter_sublist headers).map Prod.fst)

/-! ### Lemmas about the multi-dict first-value-per-key view -/

theorem mem_firstPerKey_subset (l : List (String × FilePart)) :
    ∀ p ∈ firstPerKey l, p ∈ l := by
  induction l using firstPerKey.induct with
  | case1 => simp [firstPerKey]
  | case2 k v rest ih =>
    intro p hp
    rw [firstPerKey] at hp
    rcases List.mem_cons.mp hp with h | h
    · exact h ▸ List.mem_cons_self _ _
    · exact List.mem_cons_of_mem _ (List.mem_of_mem_filter (ih p h))

theorem firstPerKey_keys_nodup (l : List (String × FilePart)) :
    ((firstPerKey l).map Prod.fst).Nodup := by
  induction l using firstPerKey.induct with
  | case1 => simp [firstPerKey]
  | case2 k v rest ih =>
    rw [firstPerKey, List.map_cons, List.nodup_cons]
    refine ⟨?_, ih⟩
    intro hk
    rcases List.mem_map.mp hk with ⟨p, hp, hpk⟩
    have hmem := mem_firstPerKey_subset _ p hp
    have := List.of_mem_filter hmem
    simp [hpk] at this

theorem find?_filter_preserve {α : Type} (l : List α) (q f : α → Bool)
    (h : ∀ a, q a = true → f a = true) :
    (l.filter f).find? q = l.find? q := by
  induction l with
  | nil => rfl
  | cons hd tl ih =>
    rw [List.filter_cons]
    cases hq : q hd with
    | true =>
      rw [h hd hq]
      simp only [if_true]
      rw [List.find?_cons_of_pos _ hq, List.find?_cons_of_pos _ hq]
    | false =>
      rw [List.find?_cons_of_neg tl (by simp [hq])]
      by_cases hf : f hd = true
      · rw [if_pos hf, List.find?_cons_of_neg _ (by simp [hq])]
        exact ih
      · rw [if_neg hf]
        exact ih

/-- A pair listed by the first-per-key view is the first entry stored
under its key. -/
theorem firstPerKey_find? (l : List (String × FilePart)) :
    ∀ k f, (k, f) ∈ firstPerKey l → l.find? (fun p => p.1 = k) = some (k, f) := by
  induction l using firstPerKey.induct with
  | case1 => simp [firstPerKey]
  | case2 k' v' rest ih =>
    intro k f hkf
    rw [firstPerKey] at hkf
    rcases List.mem_cons.mp hkf with h | h
    · injection h with h1 h2
      subst h1
      subst h2
      exact List.find?_cons_of_pos rest (by simp)
    · have hne : k ≠ k' := by
        have := List.of_mem_filter (mem_firstPerKey_subset _ _ h)
        simpa using this
      rw [List.find?_cons_of_neg rest (by simpa using Ne.symm hne)]
      rw [← find?_filter_preserve rest (fun p => p.1 = k) (fun p => p.1 ≠ k') ?_]
      · exact ih k f h
      · intro a ha
        simp only [decide_eq_true_eq] at ha
        simpa [ha] using hne

/-- Every field name carried by the inbound multi-dict is still present in
the first-per-key view. -/
theorem firstPerKey_keys_complete (l : List (String × FilePart)) :
    ∀ k f, (k, f) ∈ l → ∃ g, (k, g) ∈ firstPerKey l := by
  induction l using firstPerKey.induct with
  | case1 => simp
  | case2 k' v' rest ih =>
    intro k f hkf
    by_cases hk : k = k'
    · exact ⟨v', by rw [firstPerKey, hk]; exact List.mem_cons_self _ _⟩
    · rcases List.mem_cons.mp hkf with h | h
      · exact absurd (congrArg Prod.fst h) (by simpa using hk)
      · have hmem : (k, f) ∈ rest.filter (fun p => p.1 ≠ k') := by
          apply List.mem_filter.mpr
          exact ⟨h, by simpa using hk⟩
        rcases ih k f hmem with ⟨g, hg⟩
        exact ⟨g, by rw [firstPerKey]; exact List.mem_cons_of_mem _ hg⟩

/-- Every outbound call the handler issues carries the header dict built on
line 31 from the inbound headers. -/
theorem headers_of_mem_upstreamCalls (store : List Route)
    (upstream : OutboundRequest → Except String UpstreamResponse) (req : InboundRequest)
    (out : OutboundRequest) (hout : out ∈ (gateway store upstream req).upstreamCalls) :
    out.headers = outboundHeaders req.headers := by
  cases hres : resolvedRoute store req with
  | none =>
    rw [gateway_notFound store upstream req hres] at hout
    simp at hout
  | some r =>
    cases hm : req.method with
    | GET =>
      rw [gateway_get store upstream req r hres hm, callUpstream_calls,
        List.mem_singleton] at hout
      subst hout
      rfl
    | POST =>
      rw [gateway_postLike store upstream req r hres (Or.inl hm), callUpstream_calls,
        List.mem_singleton] at hout
      subst hout
      rfl
    | PUT =>
      rw [gateway_postLike store upstream req r hres (Or.inr (Or.inl hm)), callUpstream_calls,
        List.mem_singleton] at hout
      subst hout
      rfl
    | PATCH =>
      rw [gateway_postLike store upstream req r hres (Or.inr (Or.inr hm)), callUpstream_calls,
        List.mem_singleton] at hout
      subst hout
      rfl
    | DELETE =>
      rw [gateway_delete store upstream req r hres hm, callUpstream_calls,
        List.mem_singleton] at hout
      subst hout
      rfl
    | other s =>
      rw [gateway_other store upstream req r s hres hm] at hout
      simp at hout

/-! ### The claims -/

/-- Claim C1: for every forwarded POST, PUT or PATCH request the body
decision is binary and made once per request: with at least one multipart
file attachment the entire outbound body is multipart, built from the
non-file form fields plus the file fields, and the inbound JSON payload is
ignored (the body does not mention it); with no file attachment the parsed
inbound JSON payload is forwarded as the outbound JSON body. -/
theorem C1_body_decision (store : List Route)
    (upstream : OutboundRequest → Except String UpstreamResponse) (req : InboundRequest)
    (r : Route) (hr : resolvedRoute store req = some r) (hm : postLike req.method) :
    ∃ out : OutboundRequest,
      (gateway store upstream req).upstreamCalls = [out] ∧
      (req.files ≠ [] → out.body = .multipartBody req.form (firstPerKey req.files)) ∧
      (req.files = [] → out.body = .jsonBody req.json) := by
  refine ⟨⟨fullTargetUrl r.target_url req.path, outboundHeaders req.headers, [],
    postLikeBody req⟩, ?_, ?_, ?_⟩
  · rw [gateway_postLike store upstream req r hr hm, callUpstream_calls]
  · intro hf
    show postLikeBody req = _
    unfold postLikeBody
    rw [if_pos hf]
  · intro hf
    show postLikeBody req = _
    unfold postLikeBody
    rw [if_neg (by simp [hf])]

/-- Witness for C1: a concrete POST with one file attachment and a JSON
payload; the outbound body is multipart and ignores the JSON. -/
theorem C1_body_decision_witness :
    resolvedRoute [⟨"h", "t"⟩]
        ⟨.POST, "u", [], [("Host", "h")], [("fld", "v")],
          [("f", ⟨"a.txt", [97], "text/plain"⟩)], some "J"⟩ = some ⟨"h", "t"⟩ ∧
    postLike Method.POST ∧
    (∃ out : OutboundRequest,
      (gateway [⟨"h", "t"⟩] (fun _ => Except.error "boom")
          ⟨.POST, "u", [], [("Host", "h")], [("fld", "v")],
            [("f", ⟨"a.txt", [97], "text/plain"⟩)], some "J"⟩).upstreamCalls = [out] ∧
      ([("f", (⟨"a.txt", [97], "text/plain"⟩ : FilePart))] ≠ [] →
        out.body = .multipartBody [("fld", "v")]
          (firstPerKey [("f", ⟨"a.txt", [97], "text/plain"⟩)])) ∧
      ([("f", (⟨"a.txt", [97], "text/plain"⟩ : FilePart))] = [] →
        out.body = .jsonBody (some "J"))) :=
  ⟨rfl, Or.inl rfl,
    C1_body_decision [⟨"h", "t"⟩] (fun _ => Except.error "boom")
      ⟨.POST, "u", [], [("Host", "h")], [("fld", "v")],
        [("f", ⟨"a.txt", [97], "text/plain"⟩)], some "J"⟩ ⟨"h", "t"⟩ rfl (Or.inl rfl)⟩

/-- Claim C2 is false as stated: with a non-empty path the outbound URL
carries a literal `http://` prepended to the stripped target, so it is not
the stripped target concatenated with `/` and the path. -/
theorem C2_counterexample :
    (gateway [⟨"h", "backend:9000"⟩] (fun _ => Except.error "refused")
        ⟨.GET, "api", [], [("Host", "h")], [], [], none⟩).upstreamCalls.map
        OutboundRequest.url = ["http://backend:9000/api"] ∧
    ("http://backend:9000/api" : String) ≠ rstripSlash "backend:9000" ++ "/" ++ "api" := by
  refine ⟨rfl, ?_⟩
  decide

/-- Claim C2 (amended): for every resolved route and forwarded request the
outbound URL is `http://` ++ stripped target ++ `/` ++ path when the path
is non-empty, and the stripped target alone (no scheme prepended) when the
path is empty. -/
theorem C2_outbound_url (store : List Route)
    (upstream : OutboundRequest → Except String UpstreamResponse) (req : InboundRequest)
    (r : Route) (hr : resolvedRoute store req = some r) (hm : supported req.method) :
    ∃ out : OutboundRequest,
      (gateway store upstream req).upstreamCalls = [out] ∧
      out.url = (if req.path ≠ "" then "http://" ++ rstripSlash r.target_url ++ "/" ++ req.path
                 else rstripSlash r.target_url) := by
  obtain ⟨out, _, hcalls, hurl, _⟩ := gateway_supported store upstream req r hr hm
  refine ⟨out, hcalls, ?_⟩
  rw [hurl]
  unfold fullTargetUrl
  rfl

/-- Witness for the amended C2: a concrete GET with a non-empty path. -/
theorem C2_outbound_url_witness :
    resolvedRoute [⟨"h", "backend:9000/"⟩]
        ⟨.GET, "api", [], [("Host", "h")], [], [], none⟩ = some ⟨"h", "backend:9000/"⟩ ∧
    supported Method.GET ∧
    (∃ out : OutboundRequest,
      (gateway [⟨"h", "backend:9000/"⟩] (fun _ => Except.error "refused")
          ⟨.GET, "api", [], [("Host", "h")], [], [], none⟩).upstreamCalls = [out] ∧
      out.url = (if ("api" : String) ≠ "" then
          "http://" ++ rstripSlash "backend:9000/" ++ "/" ++ "api"
        else rstripSlash "backend:9000/")) :=
  ⟨rfl, Or.inl rfl,
    C2_outbound_url [⟨"h", "backend:9000/"⟩] (fun _ => Except.error "refused")
      ⟨.GET, "api", [], [("Host", "h")], [], [], none⟩ ⟨"h", "backend:9000/"⟩ rfl
      (Or.inl rfl)⟩

/-- Claim C3: when no route matches the inbound Host header, every method
gets `404 {"error": "Route not found"}` and no upstream call is issued,
regardless of path, query, headers, form, files or JSON body. -/
theorem C3_route_not_found (store : List Route)
    (upstream : OutboundRequest → Except String UpstreamResponse) (req : InboundRequest)
    (h : resolvedRoute store req = none) :
    (gateway store upstream req).response = .jsonError "Route not found" 404 ∧
    (gateway store upstream req).upstreamCalls = [] := by
  rw [gateway_notFound store upstream req h]
  exact ⟨rfl, rfl⟩

/-- Witness for C3: a concrete PUT whose host has no route. -/
theorem C3_route_not_found_witness :
    resolvedRoute [⟨"known", "t"⟩]
        ⟨.PUT, "p", [("a", "1")], [("Host", "unknown")], [], [], some "J"⟩ = none ∧
    (gateway [⟨"known", "t"⟩] (fun _ => Except.error "x")
        ⟨.PUT, "p", [("a", "1")], [("Host", "unknown")], [], [], some "J"⟩).response
      = .jsonError "Route not found" 404 ∧
    (gateway [⟨"known", "t"⟩] (fun _ => Except.error "x")
        ⟨.PUT, "p", [("a", "1")], [("Host", "unknown")], [], [], some "J"⟩).upstreamCalls
      = [] :=
  ⟨rfl,
    C3_route_not_found [⟨"known", "t"⟩] (fun _ => Except.error "x")
      ⟨.PUT, "p", [("a", "1")], [("Host", "unknown")], [], [], some "J"⟩ rfl⟩

/-- Claim C4: the headers sent upstream are exactly the inbound headers
with every `Host` entry (case-insensitive) removed; `Host` never reaches
the upstream and every other header is forwarded unchanged.  The inbound
header names are assumed pairwise distinct, as the WSGI transport
guarantees by joining repeated request headers into a single entry. -/
theorem C4_header_filtering (store : List Route)
    (upstream : OutboundRequest → Except String UpstreamResponse) (req : InboundRequest)
    (out : OutboundRequest) (hnd : (req.headers.map Prod.fst).Nodup)
    (hout : out ∈ (gateway store upstream req).upstreamCalls) :
    out.headers = req.headers.filter (fun p => strLower p.1 ≠ "host") ∧
    (∀ p ∈ out.headers, strLower p.1 ≠ "host") ∧
    (∀ p ∈ req.headers, strLower p.1 ≠ "host" → p ∈ out.headers) := by
  have heq := headers_of_mem_upstreamCalls store upstream req out hout
  rw [heq, outboundHeaders_eq_filter req.headers hnd]
  refine ⟨rfl, ?_, ?_⟩
  · intro p hp
    have := List.of_mem_filter hp
    simpa using this
  · intro p hp hne
    exact List.mem_filter.mpr ⟨hp, by simpa using hne⟩

/-- Witness for C4: a concrete GET with a `Host` header and one other
header; only the other header reaches the upstream. -/
theorem C4_header_filtering_witness :
    (([("Host", "h"), ("X-A", "1")] : List (String × String)).map Prod.fst).Nodup ∧
    (⟨"t", [("X-A", "1")], [], .noBody⟩ : OutboundRequest) ∈
      (gateway [⟨"h", "t"⟩] (fun _ => Except.error "x")
        ⟨.GET, "", [], [("Host", "h"), ("X-A", "1")], [], [], none⟩).upstreamCalls ∧
    ((⟨"t", [("X-A", "1")], [], .noBody⟩ : OutboundRequest).headers
        = ([("Host", "h"), ("X-A", "1")] : List (String × String)).filter
            (fun p => strLower p.1 ≠ "host") ∧
      (∀ p ∈ (⟨"t", [("X-A", "1")], [], .noBody⟩ : OutboundRequest).headers,
        strLower p.1 ≠ "host") ∧
      (∀ p ∈ ([("Host", "h"), ("X-A", "1")] : List (String × String)),
        strLower p.1 ≠ "host" →
          p ∈ (⟨"t", [("X-A", "1")], [], .noBody⟩ : OutboundRequest).headers)) :=
  ⟨by decide, by decide,
    C4_header_filtering [⟨"h", "t"⟩] (fun _ => Except.error "x")
      ⟨.GET, "", [], [("Host", "h"), ("X-A", "1")], [], [], none⟩
      ⟨"t", [("X-A", "1")], [], .noBody⟩ (by decide) (by decide)⟩

/-- Claim C5 is false as stated: the handler queries the route store before
it dispatches on the method, so an unsupported method on an unregistered
host yields 404 rather than 405, and even when 405 is returned the store
has already been queried. -/
theorem C5_counterexample :
    ((gateway [] (fun _ => Except.error "x")
        ⟨.other "OPTIONS", "p", [], [("Host", "nope")], [], [], none⟩).response
      = .jsonError "Route not found" 404) ∧
    ((gateway [⟨"h", "t"⟩] (fun _ => Except.error "x")
        ⟨.other "OPTIONS", "p", [], [("Host", "h")], [], [], none⟩).response
      = .jsonError "Method not allowed" 405) ∧
    ((gateway [⟨"h", "t"⟩] (fun _ => Except.error "x")
        ⟨.other "OPTIONS", "p", [], [("Host", "h")], [], [], none⟩).storeQueried
      = true) := by
  refine ⟨?_, ?_, rfl⟩ <;> decide

/-- Claim C5 (amended): for a method outside {GET, POST, PUT, PATCH,
DELETE} the handler issues no upstream call, but it queries the route
store first: a host with no route yields `404 {"error": "Route not
found"}`, and only a resolved host yields `405 {"error": "Method not
allowed"}`. -/
theorem C5_method_not_allowed (store : List Route)
    (upstream : OutboundRequest → Except String UpstreamResponse) (req : InboundRequest)
    (s : String) (hm : req.method = .other s) :
    (gateway store upstream req).upstreamCalls = [] ∧
    (gateway store upstream req).storeQueried = true ∧
    (resolvedRoute store req = none →
      (gateway store upstream req).response = .jsonError "Route not found" 404) ∧
    (∀ r, resolvedRoute store req = some r →
      (gateway store upstream req).response = .jsonError "Method not allowed" 405) := by
  cases hres : resolvedRoute store req with
  | none =>
    rw [gateway_notFound store upstream req hres]
    refine ⟨rfl, rfl, fun _ => rfl, ?_⟩
    intro r hr
    exact Option.noConfusion hr
  | some r =>
    rw [gateway_other store upstream req r s hres hm]
    refine ⟨rfl, rfl, ?_, fun r' _ => rfl⟩
    intro hnone
    exact Option.noConfusion hnone

/-- Witness for the amended C5: a concrete OPTIONS request to a registered
host gets 405 and no upstream call, with the store queried. -/
theorem C5_method_not_allowed_witness :
    (InboundRequest.mk (.other "OPTIONS") "p" [] [("Host", "h")] [] [] none).method
      = .other "OPTIONS" ∧
    ((gateway [⟨"h", "t"⟩] (fun _ => Except.error "x")
        ⟨.other "OPTIONS", "p", [], [("Host", "h")], [], [], none⟩).upstreamCalls = [] ∧
      (gateway [⟨"h", "t"⟩] (fun _ => Except.error "x")
        ⟨.other "OPTIONS", "p", [], [("Host", "h")], [], [], none⟩).storeQueried = true ∧
      (resolvedRoute [⟨"h", "t"⟩]
          ⟨.other "OPTIONS", "p", [], [("Host", "h")], [], [], none⟩ = none →
        (gateway [⟨"h", "t"⟩] (fun _ => Except.error "x")
          ⟨.other "OPTIONS", "p", [], [("Host", "h")], [], [], none⟩).response
          = .jsonError "Route not found" 404) ∧
      (∀ r, resolvedRoute [⟨"h", "t"⟩]
          ⟨.other "OPTIONS", "p", [], [("Host", "h")], [], [], none⟩ = some r →
        (gateway [⟨"h", "t"⟩] (fun _ => Except.error "x")
          ⟨.other "OPTIONS", "p", [], [("Host", "h")], [], [], none⟩).response
          = .jsonError "Method not allowed" 405)) :=
  ⟨rfl,
    C5_method_not_allowed [⟨"h", "t"⟩] (fun _ => Except.error "x")
      ⟨.other "OPTIONS", "p", [], [("Host", "h")], [], [], none⟩ "OPTIONS" rfl⟩

/-- Claim C6 is false as stated: a forwarded POST hands no query
parameters to the HTTP client, although the inbound request carries some;
only GET passes `params=request.args`. -/
theorem C6_counterexample :
    (gateway [⟨"h", "t"⟩] (fun _ => Except.error "x")
        ⟨.POST, "p", [("a", "1")], [("Host", "h")], [], [], some "b"⟩).upstreamCalls.map
        OutboundRequest.params = [[]] ∧
    ([[]] : List (List (String × String))) ≠ [[("a", "1")]] := by
  refine ⟨?_, ?_⟩ <;> decide

/-- Claim C6 (amended): only GET passes the inbound query parameters to
the HTTP client; POST, PUT, PATCH and DELETE are forwarded with no query
parameters at all. -/
theorem C6_query_params (store : List Route)
    (upstream : OutboundRequest → Except String UpstreamResponse) (req : InboundRequest)
    (r : Route) (hr : resolvedRoute store req = some r) (hm : supported req.method) :
    ∃ out : OutboundRequest,
      (gateway store upstream req).upstreamCalls = [out] ∧
      out.params = (if req.method = .GET then req.args else []) := by
  obtain ⟨out, _, hcalls, _, _, hparams, _⟩ := gateway_supported store upstream req r hr hm
  exact ⟨out, hcalls, hparams⟩

/-- Witness for the amended C6: a concrete GET passes its query, at the
same store where a POST (see the counterexample) would not. -/
theorem C6_query_params_witness :
    resolvedRoute [⟨"h", "t"⟩]
        ⟨.GET, "p", [("a", "1")], [("Host", "h")], [], [], none⟩ = some ⟨"h", "t"⟩ ∧
    supported Method.GET ∧
    (∃ out : OutboundRequest,
      (gateway [⟨"h", "t"⟩] (fun _ => Except.error "x")
          ⟨.GET, "p", [("a", "1")], [("Host", "h")], [], [], none⟩).upstreamCalls = [out] ∧
      out.params = (if Method.GET = Method.GET then [("a", "1")] else [])) :=
  ⟨by decide, Or.inl rfl,
    C6_query_params [⟨"h", "t"⟩] (fun _ => Except.error "x")
      ⟨.GET, "p", [("a", "1")], [("Host", "h")], [], [], none⟩ ⟨"h", "t"⟩ (by decide)
      (Or.inl rfl)⟩

/-- Claim C7: for a resolved route and a supported method the handler
issues exactly one outbound call (no retry), and if it fails the client
receives `500 {"error": <exception text>}` carrying the underlying
error's description verbatim. -/
theorem C7_upstream_failure (store : List Route)
    (upstream : OutboundRequest → Except String UpstreamResponse) (req : InboundRequest)
    (r : Route) (hr : resolvedRoute store req = some r) (hm : supported req.method) :
    ∃ out : OutboundRequest,
      (gateway store upstream req).upstreamCalls = [out] ∧
      ∀ e, upstream out = Except.error e →
        (gateway store upstream req).response = .jsonError e 500 := by
  obtain ⟨out, hgw, hcalls, _⟩ := gateway_supported store upstream req r hr hm
  refine ⟨out, hcalls, ?_⟩
  intro e he
  rw [hgw]
  exact callUpstream_error upstream out e he

/-- Witness for C7: a concrete GET against an unreachable upstream yields
exactly one call and a 500 carrying the non-empty exception text. -/
theorem C7_upstream_failure_witness :
    resolvedRoute [⟨"h", "t"⟩]
        ⟨.GET, "p", [], [("Host", "h")], [], [], none⟩ = some ⟨"h", "t"⟩ ∧
    supported Method.GET ∧
    (∃ out : OutboundRequest,
      (gateway [⟨"h", "t"⟩] (fun _ => Except.error "connection refused")
          ⟨.GET, "p", [], [("Host", "h")], [], [], none⟩).upstreamCalls = [out] ∧
      ∀ e, (fun _ => (Except.error "connection refused" : Except String UpstreamResponse)) out
          = Except.error e →
        (gateway [⟨"h", "t"⟩] (fun _ => Except.error "connection refused")
          ⟨.GET, "p", [], [("Host", "h")], [], [], none⟩).response = .jsonError e 500) :=
  ⟨by decide, Or.inl rfl,
    C7_upstream_failure [⟨"h", "t"⟩] (fun _ => Except.error "connection refused")
      ⟨.GET, "p", [], [("Host", "h")], [], [], none⟩ ⟨"h", "t"⟩ (by decide)
      (Or.inl rfl)⟩

/-- Claim C8: for a resolved route and a supported method, a successful
upstream response is relayed to the original client verbatim: its raw body
bytes, its numeric status code and its full header set, untransformed. -/
theorem C8_response_relay (store : List Route)
    (upstream : OutboundRequest → Except String UpstreamResponse) (req : InboundRequest)
    (r : Route) (hr : resolvedRoute store req = some r) (hm : supported req.method) :
    ∃ out : OutboundRequest,
      (gateway store upstream req).upstreamCalls = [out] ∧
      ∀ u : UpstreamResponse, upstream out = Except.ok u →
        (gateway store upstream req).response = .relay u.content u.status u.headers := by
  obtain ⟨out, hgw, hcalls, _⟩ := gateway_supported store upstream req r hr hm
  refine ⟨out, hcalls, ?_⟩
  intro u hu
  rw [hgw]
  exact callUpstream_ok upstream out u hu

/-- Witness for C8: a concrete GET whose upstream answers 201 with body
bytes and a header; the client receives exactly that triple. -/
theorem C8_response_relay_witness :
    resolvedRoute [⟨"h", "t"⟩]
        ⟨.GET, "p", [], [("Host", "h")], [], [], none⟩ = some ⟨"h", "t"⟩ ∧
    supported Method.GET ∧
    (∃ out : OutboundRequest,
      (gateway [⟨"h", "t"⟩] (fun _ => Except.ok ⟨[104, 105], 201, [("S", "v")]⟩)
          ⟨.GET, "p", [], [("Host", "h")], [], [], none⟩).upstreamCalls = [out] ∧
      ∀ u : UpstreamResponse,
        (fun _ => (Except.ok ⟨[104, 105], 201, [("S", "v")]⟩ : Except String UpstreamResponse))
            out = Except.ok u →
        (gateway [⟨"h", "t"⟩] (fun _ => Except.ok ⟨[104, 105], 201, [("S", "v")]⟩)
          ⟨.GET, "p", [], [("Host", "h")], [], [], none⟩).response
          = .relay u.content u.status u.headers) :=
  ⟨by decide, Or.inl rfl,
    C8_response_relay [⟨"h", "t"⟩] (fun _ => Except.ok ⟨[104, 105], 201, [("S", "v")]⟩)
      ⟨.GET, "p", [], [("Host", "h")], [], [], none⟩ ⟨"h", "t"⟩ (by decide)
      (Or.inl rfl)⟩

/-- Claim C9: the scheme handling of line 26 is asymmetric in the path:
a non-empty path yields the literal `http://` prepended to the stripped
target, `/` and the path, while an empty path yields the stripped target
verbatim, with no scheme prepended. -/
theorem C9_scheme_asymmetry (target path : String) (h : path ≠ "") :
    fullTargetUrl target path = "http://" ++ rstripSlash target ++ "/" ++ path ∧
    fullTargetUrl target "" = rstripSlash target := by
  unfold fullTargetUrl
  rw [if_pos h, if_neg (by simp)]
  exact ⟨rfl, rfl⟩

/-- Witness for C9 at a concrete target and path. -/
theorem C9_scheme_asymmetry_witness :
    ("api" : String) ≠ "" ∧
    (fullTargetUrl "backend:9000/" "api"
        = "http://" ++ rstripSlash "backend:9000/" ++ "/" ++ "api" ∧
      fullTargetUrl "backend:9000/" "" = rstripSlash "backend:9000/") :=
  ⟨by decide, C9_scheme_asymmetry "backend:9000/" "api" (by decide)⟩

/-- Claim C10: a forwarded POST/PUT/PATCH with file attachments sends at
most one file per form field name: the files dict keeps, for each name,
exactly the first file stored under it, and every field name present
inbound is still represented. -/
theorem C10_first_file_per_field (store : List Route)
    (upstream : OutboundRequest → Except String UpstreamResponse) (req : InboundRequest)
    (r : Route) (hr : resolvedRoute store req = some r) (hm : postLike req.method)
    (hf : req.files ≠ []) :
    ∃ out : OutboundRequest,
      (gateway store upstream req).upstreamCalls = [out] ∧
      out.body = .multipartBody req.form (firstPerKey req.files) ∧
      ((firstPerKey req.files).map Prod.fst).Nodup ∧
      (∀ k f, (k, f) ∈ firstPerKey req.files →
        req.files.find? (fun p => p.1 = k) = some (k, f)) ∧
      (∀ k f, (k, f) ∈ req.files → ∃ g, (k, g) ∈ firstPerKey req.files) := by
  refine ⟨⟨fullTargetUrl r.target_url req.path, outboundHeaders req.headers, [],
    postLikeBody req⟩, ?_, ?_, firstPerKey_keys_nodup _, firstPerKey_find? _,
    firstPerKey_keys_complete _⟩
  · rw [gateway_postLike store upstream req r hr hm, callUpstream_calls]
  · show postLikeBody req = _
    unfold postLikeBody
    rw [if_pos hf]

/-- Witness for C10: a concrete PUT with two files under the same field
name; only the first is forwarded. -/
theorem C10_first_file_per_field_witness :
    resolvedRoute [⟨"h", "t"⟩]
        ⟨.PUT, "u", [], [("Host", "h")], [],
          [("f", ⟨"a.txt", [97], "text/plain"⟩), ("f", ⟨"b.txt", [98], "text/plain"⟩)],
          none⟩ = some ⟨"h", "t"⟩ ∧
    postLike Method.PUT ∧
    ([("f", (⟨"a.txt", [97], "text/plain"⟩ : FilePart)),
        ("f", ⟨"b.txt", [98], "text/plain"⟩)] ≠ []) ∧
    (∃ out : OutboundRequest,
      (gateway [⟨"h", "t"⟩] (fun _ => Except.error "x")
          ⟨.PUT, "u", [], [("Host", "h")], [],
            [("f", ⟨"a.txt", [97], "text/plain"⟩), ("f", ⟨"b.txt", [98], "text/plain"⟩)],
            none⟩).upstreamCalls = [out] ∧
      out.body = .multipartBody []
        (firstPerKey [("f", ⟨"a.txt", [97], "text/plain"⟩),
          ("f", ⟨"b.txt", [98], "text/plain"⟩)]) ∧
      ((firstPerKey [("f", (⟨"a.txt", [97], "text/plain"⟩ : FilePart)),
          ("f", ⟨"b.txt", [98], "text/plain"⟩)]).map Prod.fst).Nodup ∧
      (∀ k f, (k, f) ∈ firstPerKey [("f", (⟨"a.txt", [97], "text/plain"⟩ : FilePart)),
          ("f", ⟨"b.txt", [98], "text/plain"⟩)] →
        [("f", (⟨"a.txt", [97], "text/plain"⟩ : FilePart)),
          ("f", ⟨"b.txt", [98], "text/plain"⟩)].find? (fun p => p.1 = k) = some (k, f)) ∧
      (∀ k f, (k, f) ∈ [("f", (⟨"a.txt", [97], "text/plain"⟩ : FilePart)),
          ("f", ⟨"b.txt", [98], "text/plain"⟩)] →
        ∃ g, (k, g) ∈ firstPerKey [("f", (⟨"a.txt", [97], "text/plain"⟩ : FilePart)),
          ("f", ⟨"b.txt", [98], "text/plain"⟩)])) :=
  ⟨by decide, Or.inr (Or.inl rfl), by decide,
    C10_first_file_per_field [⟨"h", "t"⟩] (fun _ => Except.error "x")
      ⟨.PUT, "u", [], [("Host", "h")], [],
        [("f", ⟨"a.txt", [97], "text/plain"⟩), ("f", ⟨"b.txt", [98], "text/plain"⟩)],
        none⟩ ⟨"h", "t"⟩ (by decide) (Or.inr (Or.inl rfl)) (by decide)⟩

end Gateway
